import Mathlib

/-!
Verification development for the `werf dismiss` command
(`cmd/werf/dismiss/dismiss.go`): identity resolution
(`getNamespaceAndRelease`) and the uninstall coordination flow
(`runDismiss`), embedded shallowly.  External collaborators (git
detection, kube initialization, the helm registry client, the lock
provider, file reads, the release-history query and the delegate
uninstall routine) are supplied as oracles in an `Env` record; the
control flow of the two functions themselves is translated line by line
from the Go source.  Side effects relevant to the specification are
recorded in an event trace.
-/

deriving instance DecidableEq for Except

/-- The left brace character, written by code point. -/
def lbrace : Char := Char.ofNat 123

/-- The right brace character, written by code point. -/
def rbrace : Char := Char.ofNat 125

/-- The double-quote character, written by code point. -/
def dquote : Char := Char.ofNat 34

/-- Embedding of the helm `release.DeployReport` structure, restricted to
the two fields `dismiss.go` consumes (`Namespace`, `Release`, with JSON
keys `namespace` and `release`). -/
structure DeployReport where
  Namespace : String
  Release : String
deriving DecidableEq, Repr

/-- Skip JSON insignificant whitespace. -/
def skipWs : List Char → List Char
  | c :: rest =>
    if c = ' ' ∨ c = '\n' ∨ c = '\t' ∨ c = '\r' then skipWs rest else c :: rest
  | [] => []

/-- Consume the body of a JSON string up to the closing quote; returns the
string contents and the remaining input.  No escape sequences are
supported (none occur in the reports this development evaluates). -/
def takeJsonStringBody : List Char → Option (List Char × List Char)
  | [] => none
  | c :: rest =>
    if c = dquote then some ([], rest)
    else
      match takeJsonStringBody rest with
      | none => none
      | some (acc, rem) => some (c :: acc, rem)

/-- Parse a JSON string literal (leading quote included). -/
def parseJsonStr (input : List Char) : Option (String × List Char) :=
  match input with
  | c :: rest =>
    if c = dquote then
      match takeJsonStringBody rest with
      | some (cs, rem) => some (String.mk cs, rem)
      | none => none
    else none
  | [] => none

/-- Parse the member list of a JSON object (string keys, string values),
consuming the closing brace; fuelled recursion. -/
def parseJsonMembers : Nat → List Char → Option (List (String × String) × List Char)
  | 0, _ => none
  | fuel + 1, input =>
    match parseJsonStr (skipWs input) with
    | none => none
    | some (key, rest) =>
      match skipWs rest with
      | c :: rest2 =>
        if c = ':' then
          match parseJsonStr (skipWs rest2) with
          | none => none
          | some (value, rest3) =>
            match skipWs rest3 with
            | d :: rest4 =>
              if d = ',' then
                match parseJsonMembers fuel rest4 with
                | some (pairs, rem) => some ((key, value) :: pairs, rem)
                | none => none
              else if d = rbrace then some ([(key, value)], rest4)
              else none
            | [] => none
        else none
      | [] => none

/-- Parse a flat JSON object with string keys and string values. -/
def parseJsonObject (s : String) : Option (List (String × String)) :=
  match skipWs s.data with
  | c :: rest =>
    if c = lbrace then
      match skipWs rest with
      | d :: rest2 =>
        if d = rbrace then
          if skipWs rest2 = [] then some [] else none
        else
          match parseJsonMembers (s.data.length + 1) (d :: rest2) with
          | some (pairs, rem) => if skipWs rem = [] then some pairs else none
          | none => none
      | [] => none
    else none
  | [] => none

/-- Look up a field of a parsed JSON object; an absent field yields the Go
zero value `""`, as `encoding/json` leaves absent struct fields zeroed. -/
def lookupField (pairs : List (String × String)) (key : String) : String :=
  match pairs.find? (fun p => p.1 == key) with
  | some p => p.2
  | none => ""

/-- Modelled from the spec: Go `encoding/json` unmarshalling of the
persisted deploy report, a "JSON document ... with at least two required
string fields, `namespace` and `release`" — restricted to the flat
string-valued objects this development evaluates.  Unknown fields are
ignored and absent fields are left empty, as in Go. -/
def jsonUnmarshalDeployReport (s : String) : Except String DeployReport :=
  match parseJsonObject s with
  | none => .error "invalid deploy report JSON"
  | some pairs =>
    .ok { Namespace := lookupField pairs "namespace", Release := lookupField pairs "release" }

/-- Render a string the way Go's `%q` verb does for the strings appearing
in this development (no characters needing escapes). -/
def goQuote (s : String) : String :=
  String.mk (dquote :: s.data ++ [dquote])

/-- The package-level `cmdData` flags of `dismiss.go`. -/
structure CmdData where
  WithNamespace : Bool
  WithHooks : Bool
deriving DecidableEq, Repr

/-- The fields of `common.CmdData` that `dismiss.go` reads during identity
resolution: `--namespace`, `--release`, `--env`, `--use-deploy-report`. -/
structure CommonCmdData where
  Namespace : String
  Release : String
  Environment : String
  UseDeployReport : Bool
deriving DecidableEq, Repr

/-- Outcome of `common.GetGiterminismManager`: a git worktree was found, or
the distinguished `GitWorktreeNotFoundError`, or some other failure. -/
inductive GitResult where
  | found
  | worktreeNotFound
  | failed (e : String)
deriving DecidableEq, Repr

/-- Outcome of the release-history query `actionConfig.Releases.History`:
the code distinguishes only `driver.ErrReleaseNotFound` from everything
else (records found, or any other error). -/
inductive HistoryResult where
  | found
  | notFound
  | otherError (e : String)
deriving DecidableEq, Repr

/-- Fields of the loaded werf configuration used by identity derivation.
werf requires the project name to be present. -/
structure WerfConfig where
  projectName : String
deriving DecidableEq, Repr

/-- Observable events of one invocation, in program order. -/
inductive Event where
  | FileRead (path : String)
  | LockManagerCreated (ns : String)
  | HistoryQueried (rel : String)
  | LogNoSuchRelease (rel : String)
  | LockAcquired (ns rel : String)
  | DelegateCalled (rel : String) (deleteNamespace deleteHooks dontFailIfNoRelease : Bool)
  | LockReleased (ns rel : String)
  | LogUsingNamespace (ns : String)
  | LogUsingRelease (rel : String)
deriving DecidableEq, Repr

/-- External collaborators of `runDismiss`, as oracles.  Each field stands
for one call site in the Go source and carries only the outcome the
dismiss code can observe. -/
structure Env where
  /-- `werf.Init` through `lrumeta.Init` and the container backend. -/
  initResult : Except String Unit
  /-- `common.GetGiterminismManager`. -/
  gitResult : GitResult
  /-- `common.GetOndemandKubeInitializer().Init`. -/
  kubeInitResult : Except String Unit
  /-- `common.GetDeployReportPath`. -/
  deployReportPath : Except String String
  /-- `os.ReadFile`. -/
  readFile : String → Except String String
  /-- `common.GetRequiredWerfConfig`, before project-name validation. -/
  werfConfig : Except String WerfConfig
  /-- `common.NewHelmRegistryClient` (only called when git was found). -/
  helmRegistryResult : Except String Unit
  /-- `lock_manager.NewLockManager`, keyed by namespace. -/
  newLockManager : String → Except String Unit
  /-- `helm.InitActionConfig`. -/
  initActionConfig : Except String Unit
  /-- `actionConfig.Releases.History`, keyed by release. -/
  history : String → HistoryResult
  /-- `helmUninstallCmd.RunE`: release, DeleteNamespace, DeleteHooks,
  DontFailIfNoRelease. -/
  delegate : String → Bool → Bool → Bool → Except String Unit
  /-- Acquisition of the release lock inside the namespace-scoped lock
  manager, keyed by release. -/
  lockAcquire : String → Except String Unit

/-- Modelled from the spec: `common.GetRequiredWerfConfig` (not under
`src/`) — "load project configuration"; a werf project has a required
non-empty project name, so loading validates it. -/
def GetRequiredWerfConfig (raw : Except String WerfConfig) : Except String WerfConfig :=
  match raw with
  | .error e => .error e
  | .ok cfg => if cfg.projectName = "" then .error "project name is required" else .ok cfg

/-- Modelled from the spec: `deploy_params.GetKubernetesNamespace` (not
under `src/`) — "derive namespace from (explicit namespace override, or
environment name, or project defaults)". -/
def GetKubernetesNamespace (namespaceOption environmentOption : String)
    (cfg : WerfConfig) : Except String String :=
  if namespaceOption ≠ "" then .ok namespaceOption
  else if environmentOption ≠ "" then .ok (cfg.projectName ++ "-" ++ environmentOption)
  else .ok cfg.projectName

/-- Modelled from the spec: `deploy_params.GetHelmRelease` (not under
`src/`) — "derive release similarly, using the already-resolved namespace
as an input to release derivation".  The resolved namespace is passed as
in the source but the default is derived from the project name. -/
def GetHelmRelease (releaseOption environmentOption nsResolved : String)
    (cfg : WerfConfig) : Except String String :=
  if releaseOption ≠ "" then .ok releaseOption
  else if environmentOption ≠ "" then .ok (cfg.projectName ++ "-" ++ environmentOption)
  else .ok cfg.projectName

/-- Embedding of `getNamespaceAndRelease` (`dismiss.go` lines 253-321),
returning the resolved pair (or the error) together with the trace of
observable events it produced. -/
def getNamespaceAndRelease (env : Env) (c : CommonCmdData) (gitFound : Bool) :
    Except String (String × String) × List Event :=
  let namespaceSpecified := c.Namespace ≠ ""
  let releaseSpecified := c.Release ≠ ""
  if c.UseDeployReport then
    if namespaceSpecified ∨ releaseSpecified then
      (.error "--namespace or --release can't be used together with --use-deploy-report", [])
    else
      match env.deployReportPath with
      | .error e => (.error ("unable to get deploy report path: " ++ e), [])
      | .ok path =>
        match env.readFile path with
        | .error e =>
          (.error ("unable to read deploy report file " ++ goQuote path ++ ": " ++ e),
            [.FileRead path])
        | .ok contents =>
          match jsonUnmarshalDeployReport contents with
          | .error e =>
            (.error ("unable to unmarshal deploy report file " ++ goQuote path ++ ": " ++ e),
              [.FileRead path])
          | .ok deployReport =>
            if deployReport.Namespace = "" then
              (.error ("unable to get namespace from deploy report file " ++ goQuote path),
                [.FileRead path])
            else if deployReport.Release = "" then
              (.error ("unable to get release from deploy report file " ++ goQuote path),
                [.FileRead path])
            else
              (.ok (deployReport.Namespace, deployReport.Release), [.FileRead path])
  else if gitFound then
    match GetRequiredWerfConfig env.werfConfig with
    | .error e => (.error ("unable to load werf config: " ++ e), [])
    | .ok werfConfigLoaded =>
      match GetKubernetesNamespace c.Namespace c.Environment werfConfigLoaded with
      | .error e => (.error e, [])
      | .ok ns =>
        match GetHelmRelease c.Release c.Environment ns werfConfigLoaded with
        | .error e => (.error e, [])
        | .ok rel => (.ok (ns, rel), [])
  else
    if ¬namespaceSpecified ∧ ¬releaseSpecified then
      (.error "no git with werf project found: dismiss should either be executed in a git repository, or with --namespace and --release specified, or with --use-deploy-report", [])
    else if namespaceSpecified ∧ ¬releaseSpecified then
      (.error "--namespace specified, but not --release, while should be specified both or none", [])
    else if ¬namespaceSpecified ∧ releaseSpecified then
      (.error "--release specified, but not --namespace, while should be specified both or none", [])
    else
      (.ok (c.Namespace, c.Release), [])

/-- Modelled from the spec: `command_helpers.LockReleaseWrapper` (not
under `src/`) — "acquire the namespace-scoped lock (exclusive, blocking),
run the delegate uninstall routine ..., then release the lock
unconditionally via scoped acquisition semantics, regardless of whether
the delegate succeeded or failed"; "lock-acquisition failure is fatal and
aborts before any mutation". -/
def LockReleaseWrapper (acq : Except String Unit) (ns rel : String)
    (body : Except String Unit × List Event) : Except String Unit × List Event :=
  match acq with
  | .error e => (.error e, [])
  | .ok _ => (body.1, Event.LockAcquired ns rel :: body.2 ++ [Event.LockReleased ns rel])

/-- `runDismiss` from the `InitActionConfig` call onward (`dismiss.go`
lines 212-250): init the helm action configuration, log the resolved
identity, then either run the delegate directly (namespace-deletion
path) or query release history and run the delegate under the lock. -/
def afterLockManager (env : Env) (cmd : CmdData) (ns rel : String) (tr : List Event) :
    Except String Unit × List Event :=
  match env.initActionConfig with
  | .error e => (.error e, tr)
  | .ok _ =>
    let tr2 := tr ++ [Event.LogUsingNamespace ns, Event.LogUsingRelease rel]
    if cmd.WithNamespace then
      (env.delegate rel true cmd.WithHooks true,
        tr2 ++ [Event.DelegateCalled rel true cmd.WithHooks true])
    else
      match env.history rel with
      | .notFound => (.ok (), tr2 ++ [Event.HistoryQueried rel, Event.LogNoSuchRelease rel])
      | _ =>
        let res := LockReleaseWrapper (env.lockAcquire rel) ns rel
          (env.delegate rel false cmd.WithHooks true,
            [Event.DelegateCalled rel false cmd.WithHooks true])
        (res.1, tr2 ++ Event.HistoryQueried rel :: res.2)

/-- `runDismiss` lines 203-210: the lock manager is created for the
resolved namespace unless the namespace itself is being deleted. -/
def dismissWithIdentity (env : Env) (cmd : CmdData) (ns rel : String) (tr : List Event) :
    Except String Unit × List Event :=
  if cmd.WithNamespace then
    afterLockManager env cmd ns rel tr
  else
    match env.newLockManager ns with
    | .error e => (.error ("unable to create lock manager: " ++ e), tr)
    | .ok _ => afterLockManager env cmd ns rel (tr ++ [Event.LockManagerCreated ns])

/-- `runDismiss` after git detection (`dismiss.go` lines 185-210): kube
initialization, identity resolution, helm registry client (git only),
then the lock-manager step. -/
def runDismissAfterGit (env : Env) (cmd : CmdData) (c : CommonCmdData) (gitFound : Bool) :
    Except String Unit × List Event :=
  match env.kubeInitResult with
  | .error e => (.error e, [])
  | .ok _ =>
    match getNamespaceAndRelease env c gitFound with
    | (.error e, tr) => (.error e, tr)
    | (.ok nsrel, tr) =>
      match (if gitFound then env.helmRegistryResult else .ok ()) with
      | .error e => (.error ("unable to create helm registry client: " ++ e), tr)
      | .ok _ => dismissWithIdentity env cmd nsrel.1 nsrel.2 tr

/-- Embedding of `runDismiss` (`dismiss.go` lines 140-251): the
initialization steps, git worktree detection (only the distinguished
`GitWorktreeNotFoundError` is tolerated), then the rest of the flow. -/
def runDismiss (env : Env) (cmd : CmdData) (c : CommonCmdData) :
    Except String Unit × List Event :=
  match env.initResult with
  | .error e => (.error ("initialization error: " ++ e), [])
  | .ok _ =>
    match env.gitResult with
    | .failed e => (.error e, [])
    | .found => runDismissAfterGit env cmd c true
    | .worktreeNotFound => runDismissAfterGit env cmd c false

/-- Is this event a call of the delegate uninstall routine? -/
def isDelegateCall : Event → Bool
  | .DelegateCalled _ _ _ _ => true
  | _ => false

/-- Is this event a lock-lifecycle event (manager creation, acquisition
or release)? -/
def isLockEvent : Event → Bool
  | .LockManagerCreated _ => true
  | .LockAcquired _ _ => true
  | .LockReleased _ _ => true
  | _ => false

/-- Is this event a lock acquisition? -/
def isLockAcquire : Event → Bool
  | .LockAcquired _ _ => true
  | _ => false

/-- Is this event a file read? -/
def isFileRead : Event → Bool
  | .FileRead _ => true
  | _ => false

/-- Did the trace call the delegate uninstall routine? -/
def hasDelegateCall (tr : List Event) : Bool := tr.any isDelegateCall

/-- Does the trace hold any lock-lifecycle event? -/
def hasLockEvent (tr : List Event) : Bool := tr.any isLockEvent

/-- Did the trace acquire a lock? -/
def hasLockAcquire (tr : List Event) : Bool := tr.any isLockAcquire

/-- Did the trace read a file? -/
def hasFileRead (tr : List Event) : Bool := tr.any isFileRead

/-- Number of delegate calls in the trace. -/
def countDelegateCalls (tr : List Event) : Nat := (tr.filter isDelegateCall).length

/-- The contents of a deploy-report file of the round-trip scenario:
exactly the two fields `namespace` and `release`. -/
def deployReportJsonRoundTrip : String :=
  String.mk (lbrace :: "\"namespace\":\"ns1\",\"release\":\"rel1\"".data ++ [rbrace])

/-- The contents of a deploy-report file holding only an empty
`namespace` field. -/
def deployReportJsonEmptyNamespace : String :=
  String.mk (lbrace :: "\"namespace\":\"\"".data ++ [rbrace])

/-- A concrete oracle environment where every collaborator succeeds, no
deploy report file exists, and the release has history records. -/
def envBase : Env where
  initResult := .ok ()
  gitResult := .worktreeNotFound
  kubeInitResult := .ok ()
  deployReportPath := .ok ".werf-deploy-report.json"
  readFile := fun _ => .error "no such file"
  werfConfig := .ok { projectName := "proj" }
  helmRegistryResult := .ok ()
  newLockManager := fun _ => .ok ()
  initActionConfig := .ok ()
  history := fun _ => .found
  delegate := fun _ _ _ _ => .ok ()
  lockAcquire := fun _ => .ok ()

/-- `envBase` with a deploy report file whose `namespace` field is empty. -/
def envEmptyNsReport : Env :=
  { envBase with
    readFile := fun p =>
      if p = ".werf-deploy-report.json" then .ok deployReportJsonEmptyNamespace
      else .error "no such file" }

/-- `envBase` with the round-trip deploy report file present. -/
def envRoundTrip : Env :=
  { envBase with
    readFile := fun p =>
      if p = ".werf-deploy-report.json" then .ok deployReportJsonRoundTrip
      else .error "no such file" }

/-- `envBase` where the release-history query reports the release gone. -/
def envNoRelease : Env :=
  { envBase with history := fun _ => .notFound }

/-- `envBase` with a failing delegate uninstall routine. -/
def envDelegateFails : Env :=
  { envBase with delegate := fun _ _ _ _ => .error "uninstall failed" }

/-- Flags with both identity flags set explicitly and no report. -/
def cExplicitBoth : CommonCmdData where
  Namespace := "ns1"
  Release := "rel1"
  Environment := ""
  UseDeployReport := false

/-- Flags requesting the deploy report with no explicit identity. -/
def cUseReport : CommonCmdData where
  Namespace := ""
  Release := ""
  Environment := ""
  UseDeployReport := true

/-- Flags requesting the deploy report together with `--namespace`. -/
def cConflict : CommonCmdData where
  Namespace := "ns1"
  Release := ""
  Environment := ""
  UseDeployReport := true

/-- The default command flags: keep the namespace, delete hooks. -/
def cmdDefault : CmdData where
  WithNamespace := false
  WithHooks := true

/-- Namespace deletion requested, hook deletion switched off. -/
def cmdWithNamespaceNoHooks : CmdData where
  WithNamespace := true
  WithHooks := false

/-- Modelled from the spec: the phases of one locked-path invocation as
seen by the namespace-scoped lock — before acquisition, inside the
critical section (where `LockReleaseWrapper` emits the
`Event.DelegateCalled` event), and after release. -/
inductive Phase where
  | beforeLock
  | critical
  | done
deriving DecidableEq, Repr

/-- Modelled from the spec: the joint state of two concurrent dismiss
invocations (indexed by `Bool`) against the same namespace, neither
requesting namespace deletion, sharing one namespace-scoped lock: the
current lock holder, if any, and each invocation's phase. -/
structure LockSysState where
  holder : Option Bool
  phase : Bool → Phase

/-- The start state: the lock is free, both invocations before the lock. -/
def lockSysStart : LockSysState where
  holder := none
  phase := fun _ => Phase.beforeLock

/-- Modelled from the spec: one interleaving step of the lock provider
("acquire be blocking and release be idempotent-safe").  An invocation
acquires the free lock and enters the critical section where the
delegate runs, or the holder leaves the critical section releasing the
lock.  Acquisition blocks while the lock is held: no step moves an
invocation into the critical section unless `holder = none`, so the
second invocation waits until the first's lock is released. -/
inductive LockStep : LockSysState → LockSysState → Prop where
  | acquire (t : Bool) (s : LockSysState) :
      s.holder = none → s.phase t = Phase.beforeLock →
      LockStep s ⟨some t, fun u => if u = t then Phase.critical else s.phase u⟩
  | release (t : Bool) (s : LockSysState) :
      s.holder = some t → s.phase t = Phase.critical →
      LockStep s ⟨none, fun u => if u = t then Phase.done else s.phase u⟩

/-- States reachable from the start state by interleaving steps. -/
inductive LockReachable : LockSysState → Prop where
  | start : LockReachable lockSysStart
  | step {s s' : LockSysState} : LockReachable s → LockStep s s' → LockReachable s'

example :
    jsonUnmarshalDeployReport deployReportJsonRoundTrip =
      .ok { Namespace := "ns1", Release := "rel1" } := by decide

example :
    jsonUnmarshalDeployReport deployReportJsonEmptyNamespace =
      .ok { Namespace := "", Release := "" } := by decide

/-- Appending to a non-empty string on the left keeps it non-empty. -/
theorem append_ne_empty_left (a b : String) (h : a ≠ "") : a ++ b ≠ "" := by
  intro hc
  apply h
  apply String.ext
  have hd := congrArg String.data hc
  rw [String.data_append] at hd
  simpa using (List.append_eq_nil.mp hd).1

/-- The trace of identity resolution is empty or a single file read. -/
theorem resolution_trace_shape (env : Env) (c : CommonCmdData) (gitFound : Bool) :
    (getNamespaceAndRelease env c gitFound).2 = [] ∨
      ∃ p, (getNamespaceAndRelease env c gitFound).2 = [Event.FileRead p] := by
  simp only [getNamespaceAndRelease]
  iterate 8 (all_goals try split)
  all_goals simp

/-- Identity resolution emits no observable event other than the read of
the deploy report file. -/
theorem resolution_trace_only_file_reads (env : Env) (c : CommonCmdData) (gitFound : Bool) :
    ∀ e ∈ (getNamespaceAndRelease env c gitFound).2, isFileRead e = true := by
  intro e he
  rcases resolution_trace_shape env c gitFound with h | ⟨p, h⟩ <;> rw [h] at he
  · simp at he
  · simp at he
    subst he
    rfl

/-- A trace of file reads has no delegate call, no lock event, zero
delegate calls and no lock acquisition. -/
theorem fileReads_only_no_side_effects (tr : List Event)
    (h : ∀ e ∈ tr, isFileRead e = true) :
    hasDelegateCall tr = false ∧ hasLockEvent tr = false ∧ countDelegateCalls tr = 0 ∧
      hasLockAcquire tr = false := by
  refine ⟨?_, ?_, ?_, ?_⟩
  · rw [hasDelegateCall, List.any_eq_false]
    intro e he
    have hf := h e he
    cases e <;> simp_all [isFileRead, isDelegateCall]
  · rw [hasLockEvent, List.any_eq_false]
    intro e he
    have hf := h e he
    cases e <;> simp_all [isFileRead, isLockEvent]
  · rw [countDelegateCalls]
    have : tr.filter isDelegateCall = [] := by
      rw [List.filter_eq_nil_iff]
      intro e he
      have hf := h e he
      cases e <;> simp_all [isFileRead, isDelegateCall]
    rw [this]
    rfl
  · rw [hasLockAcquire, List.any_eq_false]
    intro e he
    have hf := h e he
    cases e <;> simp_all [isFileRead, isLockAcquire]

/-- If the loaded configuration passed validation, its project name is
non-empty. -/
theorem GetRequiredWerfConfig_nonempty (raw : Except String WerfConfig) (cfg : WerfConfig)
    (h : GetRequiredWerfConfig raw = .ok cfg) : cfg.projectName ≠ "" := by
  unfold GetRequiredWerfConfig at h
  split at h
  · exact absurd h (by simp)
  · split at h
    · exact absurd h (by simp)
    · injection h with h'
      subst h'
      assumption

/-- The derived namespace is non-empty whenever the project name is. -/
theorem GetKubernetesNamespace_nonempty (nsOpt envOpt : String) (cfg : WerfConfig)
    (hproj : cfg.projectName ≠ "") (ns : String)
    (h : GetKubernetesNamespace nsOpt envOpt cfg = .ok ns) : ns ≠ "" := by
  unfold GetKubernetesNamespace at h
  split at h
  · injection h with h'
    subst h'
    assumption
  · split at h <;> injection h with h' <;> subst h'
    · exact append_ne_empty_left _ _ (append_ne_empty_left _ _ hproj)
    · exact hproj

/-- The derived release is non-empty whenever the project name is. -/
theorem GetHelmRelease_nonempty (relOpt envOpt nsResolved : String) (cfg : WerfConfig)
    (hproj : cfg.projectName ≠ "") (rel : String)
    (h : GetHelmRelease relOpt envOpt nsResolved cfg = .ok rel) : rel ≠ "" := by
  unfold GetHelmRelease at h
  split at h
  · injection h with h'
    subst h'
    assumption
  · split at h <;> injection h with h' <;> subst h'
    · exact append_ne_empty_left _ _ (append_ne_empty_left _ _ hproj)
    · exact hproj

/-- Under the reach hypotheses (initialization, git detection, kube init,
identity resolution and registry client all succeed), `runDismiss`
reduces to the lock-manager step on the resolved identity. -/
theorem runDismiss_reaches (env : Env) (cmd : CmdData) (c : CommonCmdData) (gitFound : Bool)
    (ns rel : String) (tr0 : List Event)
    (hinit : env.initResult = .ok ())
    (hgit : env.gitResult = (if gitFound then .found else .worktreeNotFound))
    (hkube : env.kubeInitResult = .ok ())
    (hres : getNamespaceAndRelease env c gitFound = (.ok (ns, rel), tr0))
    (hreg : env.helmRegistryResult = .ok ()) :
    runDismiss env cmd c = dismissWithIdentity env cmd ns rel tr0 := by
  cases gitFound <;>
    simp only [runDismiss, hinit, hgit, if_true, if_false, Bool.false_eq_true] <;>
    simp only [runDismissAfterGit, hkube, hres, hreg] <;> rfl

/-- When identity resolution fails, `runDismiss` propagates the error and
the resolution trace unchanged. -/
theorem runDismiss_resolution_error (env : Env) (cmd : CmdData) (c : CommonCmdData)
    (gitFound : Bool) (e : String) (tr0 : List Event)
    (hinit : env.initResult = .ok ())
    (hgit : env.gitResult = (if gitFound then .found else .worktreeNotFound))
    (hkube : env.kubeInitResult = .ok ())
    (hres : getNamespaceAndRelease env c gitFound = (.error e, tr0)) :
    runDismiss env cmd c = (.error e, tr0) := by
  cases gitFound <;>
    simp only [runDismiss, hinit, hgit, if_true, if_false, Bool.false_eq_true] <;>
    simp only [runDismissAfterGit, hkube, hres]

/-- Invariant of the lock system: an invocation inside its critical
section holds the lock. -/
theorem critical_holds_lock {s : LockSysState} (h : LockReachable s) :
    ∀ t, s.phase t = Phase.critical → s.holder = some t := by
  induction h with
  | start =>
    intro t ht
    simp [lockSysStart] at ht
  | step hr hs ih =>
    cases hs with
    | acquire t s hfree hbefore =>
      intro u hu
      by_cases hut : u = t
      · subst hut
        simp
      · simp only [hut, if_false] at hu
        have := ih u (by simpa [hut] using hu)
        rw [hfree] at this
        exact absurd this (by simp)
    | release t s hold hcrit =>
      intro u hu
      by_cases hut : u = t
      · subst hut
        simp at hu
      · simp only [hut, if_false] at hu
        have := ih u (by simpa [hut] using hu)
        rw [hold] at this
        injection this with h'
        exact absurd h'.symm hut

/-- Claim C1: on the locked (non-namespace-deletion) path, when the
release-history query reports that the release does not exist, the
dismiss command logs the fact and returns success without invoking the
delegate uninstall routine. -/
theorem dismiss_release_not_found_is_noop
    (env : Env) (cmd : CmdData) (c : CommonCmdData) (gitFound : Bool)
    (ns rel : String) (tr0 : List Event)
    (hinit : env.initResult = .ok ())
    (hgit : env.gitResult = (if gitFound then .found else .worktreeNotFound))
    (hkube : env.kubeInitResult = .ok ())
    (hres : getNamespaceAndRelease env c gitFound = (.ok (ns, rel), tr0))
    (hreg : env.helmRegistryResult = .ok ())
    (hlm : env.newLockManager ns = .ok ())
    (hac : env.initActionConfig = .ok ())
    (hwns : cmd.WithNamespace = false)
    (hhist : env.history rel = .notFound) :
    (runDismiss env cmd c).1 = .ok () ∧
    Event.LogNoSuchRelease rel ∈ (runDismiss env cmd c).2 ∧
    hasDelegateCall (runDismiss env cmd c).2 = false := by
  have h0 := fileReads_only_no_side_effects _ (resolution_trace_only_file_reads env c gitFound)
  rw [hres] at h0
  rw [runDismiss_reaches env cmd c gitFound ns rel tr0 hinit hgit hkube hres hreg]
  simp only [dismissWithIdentity, hwns, Bool.false_eq_true, if_false, hlm]
  simp only [afterLockManager, hac, hwns, Bool.false_eq_true, if_false, hhist]
  refine ⟨by trivial, by simp, ?_⟩
  simp only [hasDelegateCall, List.any_append] at h0 ⊢
  simp [h0.1, isDelegateCall]

/-- Witness for the not-found no-op theorem at a concrete input. -/
theorem dismiss_release_not_found_is_noop_witness :
    envNoRelease.history "rel1" = .notFound ∧
    ((runDismiss envNoRelease cmdDefault cExplicitBoth).1 = .ok () ∧
     Event.LogNoSuchRelease "rel1" ∈ (runDismiss envNoRelease cmdDefault cExplicitBoth).2 ∧
     hasDelegateCall (runDismiss envNoRelease cmdDefault cExplicitBoth).2 = false) :=
  ⟨by decide,
    dismiss_release_not_found_is_noop envNoRelease cmdDefault cExplicitBoth false "ns1" "rel1" []
      (by decide) (by decide) (by decide) (by decide) (by decide) (by decide) (by decide)
      (by decide) (by decide)⟩

/-- Claim C4 (counterexample): with the namespace-deletion flag set and
`--with-hooks=false`, the delegate is called with the hook-deletion flag
false, not true — refuting "hook-deletion flag true" for every
invocation with namespace deletion. -/
theorem with_namespace_hooks_flag_cex :
    Event.DelegateCalled "rel1" true false true ∈
      (runDismiss envBase cmdWithNamespaceNoHooks cExplicitBoth).2 ∧
    Event.DelegateCalled "rel1" true true true ∉
      (runDismiss envBase cmdWithNamespaceNoHooks cExplicitBoth).2 ∧
    countDelegateCalls (runDismiss envBase cmdWithNamespaceNoHooks cExplicitBoth).2 = 1 := by
  decide

/-- Claim C4 (amended): with the namespace-deletion flag true, no lock
is created or acquired and the delegate is called exactly once with the
namespace-deletion flag true and the hook-deletion flag equal to the
with-hooks flag (true by default, but user-settable). -/
theorem with_namespace_skips_lock_delegate_once
    (env : Env) (cmd : CmdData) (c : CommonCmdData) (gitFound : Bool)
    (ns rel : String) (tr0 : List Event)
    (hinit : env.initResult = .ok ())
    (hgit : env.gitResult = (if gitFound then .found else .worktreeNotFound))
    (hkube : env.kubeInitResult = .ok ())
    (hres : getNamespaceAndRelease env c gitFound = (.ok (ns, rel), tr0))
    (hreg : env.helmRegistryResult = .ok ())
    (hac : env.initActionConfig = .ok ())
    (hwns : cmd.WithNamespace = true) :
    (runDismiss env cmd c).1 = env.delegate rel true cmd.WithHooks true ∧
    hasLockEvent (runDismiss env cmd c).2 = false ∧
    countDelegateCalls (runDismiss env cmd c).2 = 1 ∧
    Event.DelegateCalled rel true cmd.WithHooks true ∈ (runDismiss env cmd c).2 := by
  have h0 := fileReads_only_no_side_effects _ (resolution_trace_only_file_reads env c gitFound)
  rw [hres] at h0
  rw [runDismiss_reaches env cmd c gitFound ns rel tr0 hinit hgit hkube hres hreg]
  simp only [dismissWithIdentity, hwns, if_true]
  simp only [afterLockManager, hac, hwns, if_true]
  refine ⟨by trivial, ?_, ?_, by simp⟩
  · simp only [hasLockEvent, List.any_append] at h0 ⊢
    simp [h0.2.1, isLockEvent]
  · have h2 := h0.2.2.1
    simp only [countDelegateCalls, List.filter_append, List.length_append] at h2 ⊢
    simp [h2, isDelegateCall]

/-- Witness for the namespace-deletion path theorem at a concrete input. -/
theorem with_namespace_skips_lock_delegate_once_witness :
    cmdWithNamespaceNoHooks.WithNamespace = true ∧
    ((runDismiss envBase cmdWithNamespaceNoHooks cExplicitBoth).1 =
       envBase.delegate "rel1" true cmdWithNamespaceNoHooks.WithHooks true ∧
     hasLockEvent (runDismiss envBase cmdWithNamespaceNoHooks cExplicitBoth).2 = false ∧
     countDelegateCalls (runDismiss envBase cmdWithNamespaceNoHooks cExplicitBoth).2 = 1 ∧
     Event.DelegateCalled "rel1" true cmdWithNamespaceNoHooks.WithHooks true ∈
       (runDismiss envBase cmdWithNamespaceNoHooks cExplicitBoth).2) :=
  ⟨by decide,
    with_namespace_skips_lock_delegate_once envBase cmdWithNamespaceNoHooks cExplicitBoth false
      "ns1" "rel1" [] (by decide) (by decide) (by decide) (by decide) (by decide) (by decide)
      (by decide)⟩

/-- Claim C5: on the locked path with the release present, the delegate's
result (success or failure) is propagated unchanged, and the lock is
acquired and then released in both cases. -/
theorem delegate_result_propagated_lock_released
    (env : Env) (cmd : CmdData) (c : CommonCmdData) (gitFound : Bool)
    (ns rel : String) (tr0 : List Event)
    (hinit : env.initResult = .ok ())
    (hgit : env.gitResult = (if gitFound then .found else .worktreeNotFound))
    (hkube : env.kubeInitResult = .ok ())
    (hres : getNamespaceAndRelease env c gitFound = (.ok (ns, rel), tr0))
    (hreg : env.helmRegistryResult = .ok ())
    (hlm : env.newLockManager ns = .ok ())
    (hac : env.initActionConfig = .ok ())
    (hwns : cmd.WithNamespace = false)
    (hhist : env.history rel = .found)
    (hacq : env.lockAcquire rel = .ok ()) :
    (runDismiss env cmd c).1 = env.delegate rel false cmd.WithHooks true ∧
    Event.LockAcquired ns rel ∈ (runDismiss env cmd c).2 ∧
    Event.LockReleased ns rel ∈ (runDismiss env cmd c).2 := by
  rw [runDismiss_reaches env cmd c gitFound ns rel tr0 hinit hgit hkube hres hreg]
  simp only [dismissWithIdentity, hwns, Bool.false_eq_true, if_false, hlm]
  simp only [afterLockManager, hac, hwns, Bool.false_eq_true, if_false, hhist]
  simp only [LockReleaseWrapper, hacq]
  refine ⟨by trivial, by simp, by simp⟩

/-- Witness for the propagation/release theorem at a concrete input with
a failing delegate. -/
theorem delegate_result_propagated_lock_released_witness :
    envDelegateFails.delegate "rel1" false cmdDefault.WithHooks true = .error "uninstall failed" ∧
    ((runDismiss envDelegateFails cmdDefault cExplicitBoth).1 =
       envDelegateFails.delegate "rel1" false cmdDefault.WithHooks true ∧
     Event.LockAcquired "ns1" "rel1" ∈ (runDismiss envDelegateFails cmdDefault cExplicitBoth).2 ∧
     Event.LockReleased "ns1" "rel1" ∈ (runDismiss envDelegateFails cmdDefault cExplicitBoth).2) :=
  ⟨by decide,
    delegate_result_propagated_lock_released envDelegateFails cmdDefault cExplicitBoth false
      "ns1" "rel1" [] (by decide) (by decide) (by decide) (by decide) (by decide) (by decide)
      (by decide) (by decide) (by decide) (by decide)⟩

/-- Claim C6: two concurrent invocations against the same namespace,
neither deleting the namespace, never execute the delegate uninstall
routine simultaneously — in every reachable state of the lock system at
most one invocation is in its critical section. -/
theorem namespace_lock_mutual_exclusion (s : LockSysState) (h : LockReachable s) :
    ¬ (s.phase true = Phase.critical ∧ s.phase false = Phase.critical) := by
  rintro ⟨h1, h2⟩
  have a1 := critical_holds_lock h true h1
  have a2 := critical_holds_lock h false h2
  rw [a1] at a2
  simp at a2

/-- Witness for the mutual-exclusion theorem at the start state. -/
theorem namespace_lock_mutual_exclusion_witness :
    LockReachable lockSysStart ∧
    ¬ (lockSysStart.phase true = Phase.critical ∧ lockSysStart.phase false = Phase.critical) :=
  ⟨LockReachable.start, namespace_lock_mutual_exclusion lockSysStart LockReachable.start⟩

/-- Claim C7 (counterexample): a second invocation against a release the
first one removed terminates successfully via the not-found path with
the delegate skipped, but no lock is acquired at all — the history check
runs without holding the lock, refuting "the lock is still acquired for
the release-history check". -/
theorem not_found_path_no_lock_acquired_cex :
    (runDismiss envNoRelease cmdDefault cExplicitBoth).1 = .ok () ∧
    hasDelegateCall (runDismiss envNoRelease cmdDefault cExplicitBoth).2 = false ∧
    hasLockAcquire (runDismiss envNoRelease cmdDefault cExplicitBoth).2 = false := by
  decide

/-- Claim C7 (amended): on the locked path against a release that no
longer exists, the invocation terminates successfully via the not-found
path with the delegate skipped; the lock manager is created for the
namespace, but no lock is acquired — the history check runs before any
lock acquisition. -/
theorem not_found_path_lock_manager_only
    (env : Env) (cmd : CmdData) (c : CommonCmdData) (gitFound : Bool)
    (ns rel : String) (tr0 : List Event)
    (hinit : env.initResult = .ok ())
    (hgit : env.gitResult = (if gitFound then .found else .worktreeNotFound))
    (hkube : env.kubeInitResult = .ok ())
    (hres : getNamespaceAndRelease env c gitFound = (.ok (ns, rel), tr0))
    (hreg : env.helmRegistryResult = .ok ())
    (hlm : env.newLockManager ns = .ok ())
    (hac : env.initActionConfig = .ok ())
    (hwns : cmd.WithNamespace = false)
    (hhist : env.history rel = .notFound) :
    (runDismiss env cmd c).1 = .ok () ∧
    hasDelegateCall (runDismiss env cmd c).2 = false ∧
    Event.LockManagerCreated ns ∈ (runDismiss env cmd c).2 ∧
    hasLockAcquire (runDismiss env cmd c).2 = false := by
  have h0 := fileReads_only_no_side_effects _ (resolution_trace_only_file_reads env c gitFound)
  rw [hres] at h0
  rw [runDismiss_reaches env cmd c gitFound ns rel tr0 hinit hgit hkube hres hreg]
  simp only [dismissWithIdentity, hwns, Bool.false_eq_true, if_false, hlm]
  simp only [afterLockManager, hac, hwns, Bool.false_eq_true, if_false, hhist]
  refine ⟨by trivial, ?_, by simp, ?_⟩
  · simp only [hasDelegateCall, List.any_append] at h0 ⊢
    simp [h0.1, isDelegateCall]
  · simp only [hasLockAcquire, List.any_append] at h0 ⊢
    simp [h0.2.2.2, isLockAcquire]

/-- Witness for the amended not-found-path theorem at a concrete input. -/
theorem not_found_path_lock_manager_only_witness :
    envNoRelease.history "rel1" = .notFound ∧
    ((runDismiss envNoRelease cmdDefault cExplicitBoth).1 = .ok () ∧
     hasDelegateCall (runDismiss envNoRelease cmdDefault cExplicitBoth).2 = false ∧
     Event.LockManagerCreated "ns1" ∈ (runDismiss envNoRelease cmdDefault cExplicitBoth).2 ∧
     hasLockAcquire (runDismiss envNoRelease cmdDefault cExplicitBoth).2 = false) :=
  ⟨by decide,
    not_found_path_lock_manager_only envNoRelease cmdDefault cExplicitBoth false "ns1" "rel1" []
      (by decide) (by decide) (by decide) (by decide) (by decide) (by decide) (by decide)
      (by decide) (by decide)⟩

/-- Claim C2: whenever the use-deploy-report flag is set together with an
explicit namespace or explicit release flag, identity resolution fails
with the conflicting-sources error, and no file read occurs (the trace
is empty). -/
theorem use_deploy_report_conflicts_with_explicit_flags
    (env : Env) (c : CommonCmdData) (gitFound : Bool)
    (hrep : c.UseDeployReport = true)
    (hflag : c.Namespace ≠ "" ∨ c.Release ≠ "") :
    getNamespaceAndRelease env c gitFound =
      (.error "--namespace or --release can't be used together with --use-deploy-report", []) ∧
    hasFileRead (getNamespaceAndRelease env c gitFound).2 = false := by
  have h1 : getNamespaceAndRelease env c gitFound =
      (.error "--namespace or --release can't be used together with --use-deploy-report", []) := by
    simp only [getNamespaceAndRelease, hrep, if_true]
    rw [if_pos hflag]
  exact ⟨h1, by rw [h1]; rfl⟩

/-- Witness for the conflicting-sources theorem at a concrete input. -/
theorem use_deploy_report_conflicts_with_explicit_flags_witness :
    cConflict.UseDeployReport = true ∧ (cConflict.Namespace ≠ "" ∨ cConflict.Release ≠ "") ∧
    (getNamespaceAndRelease envBase cConflict false =
      (.error "--namespace or --release can't be used together with --use-deploy-report", []) ∧
     hasFileRead (getNamespaceAndRelease envBase cConflict false).2 = false) :=
  ⟨by decide, by decide,
    use_deploy_report_conflicts_with_explicit_flags envBase cConflict false (by decide) (by decide)⟩

/-- Claim C3: with no deploy report requested and no git project found,
resolution fails when neither explicit flag is set, fails naming the
missing flag when exactly one is set, and returns exactly the explicit
pair when both are set. -/
theorem explicit_flags_resolution_no_git (env : Env) (c : CommonCmdData)
    (hrep : c.UseDeployReport = false) :
    (c.Namespace = "" → c.Release = "" →
      getNamespaceAndRelease env c false =
        (.error "no git with werf project found: dismiss should either be executed in a git repository, or with --namespace and --release specified, or with --use-deploy-report", [])) ∧
    (c.Namespace ≠ "" → c.Release = "" →
      getNamespaceAndRelease env c false =
        (.error "--namespace specified, but not --release, while should be specified both or none", [])) ∧
    (c.Namespace = "" → c.Release ≠ "" →
      getNamespaceAndRelease env c false =
        (.error "--release specified, but not --namespace, while should be specified both or none", [])) ∧
    (c.Namespace ≠ "" → c.Release ≠ "" →
      getNamespaceAndRelease env c false =
        (.ok (c.Namespace, c.Release), [])) := by
  refine ⟨?_, ?_, ?_, ?_⟩ <;> intro h1 h2 <;> simp [getNamespaceAndRelease, hrep, h1, h2]

/-- Witness for the explicit-flag resolution theorem at a concrete input. -/
theorem explicit_flags_resolution_no_git_witness :
    cExplicitBoth.UseDeployReport = false ∧
    (cExplicitBoth.Namespace ≠ "" → cExplicitBoth.Release ≠ "" →
      getNamespaceAndRelease envBase cExplicitBoth false =
        (.ok (cExplicitBoth.Namespace, cExplicitBoth.Release), [])) :=
  ⟨by decide,
    (explicit_flags_resolution_no_git envBase cExplicitBoth (by decide)).2.2.2⟩

/-- Claim C8 (counterexample): for the report `.x7b"namespace":"".x7d`
the resolution error cites the missing namespace field, not the missing
release field the claim names. -/
theorem empty_namespace_report_cites_namespace_cex :
    (getNamespaceAndRelease envEmptyNsReport cUseReport false).1 =
      .error ("unable to get namespace from deploy report file " ++
        goQuote ".werf-deploy-report.json") ∧
    (getNamespaceAndRelease envEmptyNsReport cUseReport false).1 ≠
      .error ("unable to get release from deploy report file " ++
        goQuote ".werf-deploy-report.json") := by
  decide

/-- Claim C8 (amended): when use-deploy-report is set and the report file
parses as JSON but holds an empty namespace field, resolution fails
citing the missing namespace field, and no lock event occurs. -/
theorem empty_namespace_report_fails_on_namespace
    (env : Env) (cmd : CmdData) (c : CommonCmdData) (gitFound : Bool)
    (p s : String) (dr : DeployReport)
    (hinit : env.initResult = .ok ())
    (hgit : env.gitResult = (if gitFound then .found else .worktreeNotFound))
    (hkube : env.kubeInitResult = .ok ())
    (hrep : c.UseDeployReport = true)
    (hns : c.Namespace = "") (hrel : c.Release = "")
    (hpath : env.deployReportPath = .ok p)
    (hread : env.readFile p = .ok s)
    (hparse : jsonUnmarshalDeployReport s = .ok dr)
    (hempty : dr.Namespace = "") :
    (runDismiss env cmd c).1 =
      .error ("unable to get namespace from deploy report file " ++ goQuote p) ∧
    hasLockEvent (runDismiss env cmd c).2 = false := by
  have hres : getNamespaceAndRelease env c gitFound =
      (.error ("unable to get namespace from deploy report file " ++ goQuote p),
        [Event.FileRead p]) := by
    simp only [getNamespaceAndRelease, hrep, hns, hrel, hpath, hread, hparse, hempty]
    simp
  rw [runDismiss_resolution_error env cmd c gitFound _ _ hinit hgit hkube hres]
  exact ⟨rfl, by simp [hasLockEvent, isLockEvent]⟩

/-- Witness for the amended empty-namespace-report theorem at a concrete
input. -/
theorem empty_namespace_report_fails_on_namespace_witness :
    envEmptyNsReport.readFile ".werf-deploy-report.json" = .ok deployReportJsonEmptyNamespace ∧
    ((runDismiss envEmptyNsReport cmdDefault cUseReport).1 =
      .error ("unable to get namespace from deploy report file " ++
        goQuote ".werf-deploy-report.json") ∧
     hasLockEvent (runDismiss envEmptyNsReport cmdDefault cUseReport).2 = false) :=
  ⟨by decide,
    empty_namespace_report_fails_on_namespace envEmptyNsReport cmdDefault cUseReport false
      ".werf-deploy-report.json" deployReportJsonEmptyNamespace
      { Namespace := "", Release := "" }
      (by decide) (by decide) (by decide) (by decide) (by decide) (by decide) (by decide)
      (by decide) (by decide) (by decide)⟩

/-- Claim C9: a deploy-report file containing exactly the two fields
`namespace: ns1` and `release: rel1`, resolved with use-deploy-report
set and no explicit flags, yields the target identity `(ns1, rel1)`. -/
theorem deploy_report_round_trip
    (env : Env) (c : CommonCmdData) (gitFound : Bool) (p : String)
    (hrep : c.UseDeployReport = true)
    (hns : c.Namespace = "") (hrel : c.Release = "")
    (hpath : env.deployReportPath = .ok p)
    (hread : env.readFile p = .ok deployReportJsonRoundTrip) :
    getNamespaceAndRelease env c gitFound = (.ok ("ns1", "rel1"), [Event.FileRead p]) := by
  have hparse : jsonUnmarshalDeployReport deployReportJsonRoundTrip =
      .ok { Namespace := "ns1", Release := "rel1" } := by decide
  simp only [getNamespaceAndRelease, hrep, hns, hrel, hpath, hread, hparse]
  simp

/-- Witness for the round-trip theorem at a concrete input. -/
theorem deploy_report_round_trip_witness :
    envRoundTrip.readFile ".werf-deploy-report.json" = .ok deployReportJsonRoundTrip ∧
    getNamespaceAndRelease envRoundTrip cUseReport false =
      (.ok ("ns1", "rel1"), [Event.FileRead ".werf-deploy-report.json"]) :=
  ⟨by decide,
    deploy_report_round_trip envRoundTrip cUseReport false ".werf-deploy-report.json"
      (by decide) (by decide) (by decide) (by decide) (by decide)⟩

/-- Claim C10: whenever identity resolution returns without error, both
the namespace and the release of the returned pair are non-empty. -/
theorem resolved_identity_nonempty (env : Env) (c : CommonCmdData) (gitFound : Bool)
    (ns rel : String) (tr : List Event)
    (h : getNamespaceAndRelease env c gitFound = (.ok (ns, rel), tr)) :
    ns ≠ "" ∧ rel ≠ "" := by
  simp only [getNamespaceAndRelease] at h
  iterate 8 (all_goals try split at h)
  all_goals simp_all
  rename_i hcfg hns hrel
  have hproj := GetRequiredWerfConfig_nonempty _ _ hcfg
  exact ⟨GetKubernetesNamespace_nonempty _ _ _ hproj _ hns,
    GetHelmRelease_nonempty _ _ _ _ hproj _ hrel⟩

/-- Witness for the non-empty-identity theorem at a concrete input. -/
theorem resolved_identity_nonempty_witness :
    getNamespaceAndRelease envBase cExplicitBoth false = (.ok ("ns1", "rel1"), []) ∧
    ("ns1" ≠ "" ∧ "rel1" ≠ "") :=
  ⟨by decide,
    resolved_identity_nonempty envBase cExplicitBoth false "ns1" "rel1" [] (by decide)⟩
